import Mathlib

/-!
Shallow embedding of the pDiem light client (src/main.rs): the client
state `LibraDemo`, the ratchet wrapper `verify_state_proof`, the
per-pass `init_state`, transaction fetching `get_transactions`, and the
sync loop bookkeeping and pagination arithmetic of `bridge`.

External collaborators (the diem_types proof primitives and the JSON-RPC
transport) are modelled abstractly, following the spec: decoded proof
values are inputs, byte decoding is an `Option` (`none` models bytes
that fail to decode or a failed transport slot), and quorum-signature
checking against a validator set is identity of an abstract set id.
Rust `unwrap`/`expect` failures are the `panicked` outcome,
`ensure!`/`?` early returns are the `err` outcome, and a normal `Ok(())`
return is `ok`; each client method returns its outcome paired with the
post-call state of the receiver.
-/

/-- A ledger info record: the ledger version it attests, its epoch, and
the validator set it establishes for the next epoch when it is an
epoch-change record (`none` otherwise). Validator sets are abstract ids. -/
structure LedgerInfo where
  version : Nat
  epoch : Nat
  next_epoch_state : Option Nat
  deriving DecidableEq, Repr

/-- A ledger info together with its quorum endorsement, abstracted as the
id of the validator set whose quorum signed it. -/
structure LedgerInfoWithSignatures where
  ledger_info : LedgerInfo
  signed_by : Nat
  deriving DecidableEq, Repr

/-- Modelled from the spec: the external proof primitive
`verify_signatures(checkpoint, validator_set) -> bool`, abstracted as
identity of the abstract validator-set id that signed the record. -/
def verify_signatures (li : LedgerInfoWithSignatures) (validator_set : Nat) : Bool :=
  li.signed_by == validator_set

/-- An ordered sequence of epoch-change checkpoints. -/
structure EpochChangeProof where
  ledger_info_with_sigs : List LedgerInfoWithSignatures
  deriving DecidableEq, Repr

/-- Modelled from the spec: a ConsistencyProof binds an older verified
version's accumulator root to a newer version's. The source decodes one
per pass (main.rs line 90) but never inspects it, so its contents are
abstracted to the two versions it claims to link. -/
structure AccumulatorConsistencyProof where
  from_version : Nat
  to_version : Nat
  deriving DecidableEq, Repr

/-- Whether a consistency proof links the verified version `older` to the
candidate version `newer`. -/
def AccumulatorConsistencyProof.links (p : AccumulatorConsistencyProof)
    (older newer : Nat) : Bool :=
  p.from_version == older && p.to_version == newer

/-- The trust anchor: highest verified ledger version, trusted epoch, and
the abstract id of the validator set that endorses records of that epoch. -/
structure TrustedState where
  latest_version : Nat
  epoch : Nat
  verifier : Nat
  deriving DecidableEq, Repr

/-- Modelled from the spec: diem `TrustedState::try_from(ledger_info)`
(external to this source) seeds an anchor from a checkpoint, taking its
version and epoch and the validator set the checkpoint establishes; a
checkpoint establishing no next-epoch validator set cannot seed an
anchor, and the `unwrap` at main.rs line 96 then panics. -/
def TrustedState.try_from (li : LedgerInfo) : Option TrustedState :=
  match li.next_epoch_state with
  | some v => some { latest_version := li.version, epoch := li.epoch, verifier := v }
  | none => none

/-- Errors of the ratchet engine, per the spec's taxonomy. -/
inductive RatchetError where
  | stale
  | verificationFailed
  deriving DecidableEq, Repr

/-- Outcome of a successful ratchet call (diem `TrustedStateChange`). -/
inductive TrustedStateChange where
  | Epoch (new_state : TrustedState) (latest_epoch_change_li : LedgerInfoWithSignatures)
  | Version (new_state : TrustedState)
  | NoChange
  deriving DecidableEq, Repr

/-- Modelled from the spec: walk the epoch change proof's checkpoint
sequence in order; each step must be signed by the validator set
established by the previous step, strictly increase the epoch, and
itself establish a next validator set. Returns the finally established
set together with the last checkpoint of the chain, or `none` when any
step fails or the chain is empty. -/
def verifyChain (verifier epoch : Nat) :
    List LedgerInfoWithSignatures → Option (Nat × LedgerInfoWithSignatures)
  | [] => none
  | cp :: rest =>
    match cp.ledger_info.next_epoch_state with
    | none => none
    | some v =>
      if cp.signed_by == verifier && epoch < cp.ledger_info.epoch then
        match rest with
        | [] => some (v, cp)
        | _ :: _ => verifyChain v cp.ledger_info.epoch rest
      else none

/-- Modelled from the spec: the Ratchet Engine operation
(diem `TrustedState::verify_and_ratchet`, external to this source). A
candidate below the anchor's version is stale; a same-epoch candidate is
checked against the current validator set and advances only the
version (or is a no-op at the same version); a later-epoch candidate is
checked through the epoch-change chain, whose finally established set
must endorse it; an earlier-epoch candidate is stale. -/
def verify_and_ratchet (ts : TrustedState) (li : LedgerInfoWithSignatures)
    (epoch_change_proof : EpochChangeProof) : Except RatchetError TrustedStateChange :=
  if li.ledger_info.version < ts.latest_version then
    .error .stale
  else if li.ledger_info.epoch == ts.epoch then
    if verify_signatures li ts.verifier then
      if li.ledger_info.version == ts.latest_version then
        .ok .NoChange
      else
        .ok (.Version { ts with latest_version := li.ledger_info.version })
    else
      .error .verificationFailed
  else if ts.epoch < li.ledger_info.epoch then
    match verifyChain ts.verifier ts.epoch epoch_change_proof.ledger_info_with_sigs with
    | some (v, lastCp) =>
      if verify_signatures li v then
        .ok (.Epoch { latest_version := li.ledger_info.version,
                      epoch := li.ledger_info.epoch, verifier := v } lastCp)
      else
        .error .verificationFailed
    | none => .error .verificationFailed
  else
    .error .stale

/-- Abstracted hex-bytes view. -/
structure BytesView where
  bytes : List Nat
  deriving DecidableEq, Repr

/-- Abstracted event view. -/
structure EventView where
  key : Nat
  deriving DecidableEq, Repr

/-- Abstracted balance view. -/
structure AmountView where
  amount : Nat
  currency : Nat
  deriving DecidableEq, Repr

/-- The four transaction kinds of the JSON-RPC transaction view. -/
inductive TransactionDataView where
  | UserTransaction
  | BlockMetadata (timestamp_usecs : Nat)
  | WriteSet
  | UnknownTransaction
  deriving DecidableEq, Repr

/-- A fetched transaction record. -/
structure TransactionView where
  version : Nat
  hash : Nat
  transaction : TransactionDataView
  deriving DecidableEq, Repr

/-- Decoded view of one get-state-proof response: each field holds the
bcs-decoded value of the corresponding byte string, with `none`
modelling bytes that fail to decode (the `unwrap`s at main.rs
lines 85-91 then panic). -/
structure StateProofView where
  epoch_change_proof : Option EpochChangeProof
  ledger_info_with_signatures : Option LedgerInfoWithSignatures
  ledger_consistency_proof : Option AccumulatorConsistencyProof
  deriving DecidableEq, Repr

/-- diem `ChainId::new`. -/
def ChainId.new (id : Nat) : Nat := id

/-- The client state of main.rs, field for field; the JSON-RPC client is
abstracted to the endpoint string it was built from. -/
structure LibraDemo where
  chain_id : Nat
  rpc_client : String
  trusted_state : Option TrustedState
  latest_epoch_change_li : Option LedgerInfoWithSignatures
  latest_li : Option LedgerInfoWithSignatures
  sent_events_key : Option BytesView
  received_events_key : Option BytesView
  sent_events : Option (List EventView)
  received_events : Option (List EventView)
  transactions : Option (List TransactionView)
  balances : Option (List AmountView)
  deriving DecidableEq, Repr

/-- `LibraDemo::new` (main.rs lines 53-69): every field starts `None` and
the chain id is hard-coded to `ChainId::new(2)`. -/
def LibraDemo.new (url : String) : LibraDemo :=
  { chain_id := ChainId.new 2,
    rpc_client := url,
    trusted_state := none,
    latest_epoch_change_li := none,
    latest_li := none,
    sent_events_key := none,
    received_events_key := none,
    sent_events := none,
    received_events := none,
    transactions := none,
    balances := none }

/-- The error value a client method returns: the `ensure!` stale-version
error of main.rs lines 114-119, or a propagated ratchet error. -/
inductive VerifyError where
  | stale
  | ratchet (e : RatchetError)
  deriving DecidableEq, Repr

/-- How one client method call ends: a normal `Ok(())` return, an error
return (`ensure!` or `?`), or a Rust panic (`unwrap` / `expect`). -/
inductive Outcome where
  | ok
  | err (e : VerifyError)
  | panicked
  deriving DecidableEq, Repr

/-- `LibraDemo::verify_state_proof` (main.rs lines 107-152), paired with
the post-call receiver state. Reads the current version (panicking when
no trusted state exists), rejects a stale candidate via `ensure!`,
propagates ratchet errors via `?`, and on success applies the returned
change; the `Epoch` arm first `expect`s a next-epoch state on the
epoch-change ledger info while printing it. -/
def verify_state_proof (s : LibraDemo) (li : LedgerInfoWithSignatures)
    (epoch_change_proof : EpochChangeProof) : Outcome × LibraDemo :=
  match s.trusted_state with
  | none => (.panicked, s)
  | some ts =>
    -- client_version := ts.latest_version (main.rs line 112)
    if li.ledger_info.version < ts.latest_version then
      (.err .stale, s)
    else
      match verify_and_ratchet ts li epoch_change_proof with
      | .error e => (.err (.ratchet e), s)
      | .ok (.Epoch new_state latest_epoch_change_li) =>
        match latest_epoch_change_li.ledger_info.next_epoch_state with
        | none => (.panicked, s)
        | some _ =>
          (.ok, { s with trusted_state := some new_state,
                         latest_epoch_change_li := some latest_epoch_change_li })
      | .ok (.Version new_state) =>
        (.ok, { s with trusted_state := some new_state })
      | .ok .NoChange => (.ok, s)

/-- `LibraDemo::init_state` (main.rs lines 71-105), paired with the
post-call receiver state. The transport result and the three decodes are
`unwrap`ped (panic on `none`), the first checkpoint of the epoch change
proof is taken by indexing (panic when empty), the three trust fields
are overwritten from it in source order (lines 95-97), and the final
`verify_state_proof` call's `Result` is discarded with `let _ =`, so the
method returns `Ok(())` whether or not that verification succeeded. -/
def init_state (s : LibraDemo) (from_version : Nat)
    (resp : Option StateProofView) : Outcome × LibraDemo :=
  match resp with
  | none => (.panicked, s)
  | some state_proof =>
    match state_proof.epoch_change_proof with
    | none => (.panicked, s)
    | some epoch_change_proof =>
      match state_proof.ledger_info_with_signatures with
      | none => (.panicked, s)
      | some ledger_info_with_signatures =>
        match state_proof.ledger_consistency_proof with
        | none => (.panicked, s)
        | some _ledger_consistency_proof =>
          match epoch_change_proof.ledger_info_with_sigs.head? with
          | none => (.panicked, s)
          | some zero_ledger_info_with_sigs =>
            -- line 95 assigns latest_epoch_change_li, then line 96 unwraps
            -- try_from (panicking with only that field updated), then line 97
            -- assigns latest_li; line 100 discards the verification Result.
            match TrustedState.try_from zero_ledger_info_with_sigs.ledger_info with
            | none =>
              (.panicked, { s with latest_epoch_change_li := some zero_ledger_info_with_sigs })
            | some ts0 =>
              match verify_state_proof
                  { s with latest_epoch_change_li := some zero_ledger_info_with_sigs,
                           trusted_state := some ts0,
                           latest_li := some ledger_info_with_signatures }
                  ledger_info_with_signatures epoch_change_proof with
              | (.panicked, s3) => (.panicked, s3)
              | (.ok, s3) => (.ok, s3)
              | (.err _, s3) => (.ok, s3)

/-- `LibraDemo::get_transactions` (main.rs lines 154-187), paired with
the post-call receiver state: the request arguments go out on the
wire, the response (`none` modelling a failed transport slot or view
decode, which the `unwrap`s panic on) is stored in `self.transactions`. -/
def get_transactions (s : LibraDemo) (start_version limit : Nat)
    (include_events : Bool) (resp : Option (List TransactionView)) : Outcome × LibraDemo :=
  match resp with
  | none => (.panicked, s)
  | some txs => (.ok, { s with transactions := some txs })

/-- `let new_limit: u64 = 1;` of `bridge` (main.rs line 197). -/
def new_limit : Nat := 1

/-- The mutable bookkeeping of the `bridge` loop (main.rs lines 194-214):
the baseline `known_version` passed to `init_state`, and the pagination
cursor `start` and page size `limit`. -/
structure BridgeState where
  known_version : Nat
  start : Nat
  limit : Nat
  deriving DecidableEq, Repr

/-- `bridge`'s initial bindings: `known_version = 0`, `start = 0`,
`limit = 100` (main.rs lines 194-196). -/
def bridgeInit : BridgeState :=
  { known_version := 0, start := 0, limit := 100 }

/-- The loop-state update of one `bridge` pass that verified up to
`new_version`: `start = end * limit / new_limit` with
`end = new_version / limit`, then `limit = new_limit` (main.rs
lines 201, 209-210). `known_version` is an immutable binding declared
outside the loop and is never reassigned. -/
def bridgeStep (b : BridgeState) (new_version : Nat) : BridgeState :=
  { known_version := b.known_version,
    start := new_version / b.limit * b.limit / new_limit,
    limit := new_limit }

/-- The page requests one `bridge` pass issues after verifying up to
`new_version`: `for index in start..end` with `end = new_version / limit`,
each request being `get_transactions(index * limit + 1, limit, true)`
(main.rs lines 201-203), abstracted to the pair (start_version, limit). -/
def passPages (start limit new_version : Nat) : List (Nat × Nat) :=
  (List.range' start (new_version / limit - start)).map
    (fun index => (index * limit + 1, limit))

/-- The ledger versions covered by one transaction page request
(start_version, limit): the interval of length `limit` beginning at
`start_version`. -/
def pageVersions (p : Nat × Nat) : List Nat :=
  List.range' p.1 p.2

/-- All ledger versions requested by one `bridge` pass, in request order. -/
def passVersions (start limit new_version : Nat) : List Nat :=
  (passPages start limit new_version).flatMap pageVersions

/-- The highest version a pass with page size `limit` paginates through
after verifying up to `new_version`: pages are whole, so the trailing
partial page below `new_version` is not fetched. -/
def lastPaginatedVersion (limit new_version : Nat) : Nat :=
  new_version / limit * limit

/-! ## Helper lemmas -/

/-- A successful chain walk ends at a checkpoint that establishes the
finally returned validator set. -/
theorem verifyChain_last_establishes :
    ∀ (l : List LedgerInfoWithSignatures) (verifier epoch v : Nat)
      (cp : LedgerInfoWithSignatures),
      verifyChain verifier epoch l = some (v, cp) →
      cp.ledger_info.next_epoch_state = some v := by
  intro l
  induction l with
  | nil => intro verifier epoch v cp h; simp [verifyChain] at h
  | cons hd tl ih =>
    intro verifier epoch v cp h
    unfold verifyChain at h
    split at h
    · exact absurd h (by simp)
    · next w hne =>
      split at h
      · split at h
        · simp only [Option.some.injEq, Prod.mk.injEq] at h
          obtain ⟨hv, hcp⟩ := h
          subst hv; subst hcp; exact hne
        · exact ih _ _ _ _ h
      · exact absurd h (by simp)

/-- A `Version` outcome of the ratchet is exactly the old anchor with the
candidate's version, and the candidate was not below the old version. -/
theorem ratchet_version_eq (ts : TrustedState) (li : LedgerInfoWithSignatures)
    (p : EpochChangeProof) (ns : TrustedState)
    (h : verify_and_ratchet ts li p = .ok (.Version ns)) :
    ns = { ts with latest_version := li.ledger_info.version } ∧
    ts.latest_version ≤ li.ledger_info.version := by
  unfold verify_and_ratchet at h
  split at h
  · exact absurd h (by simp)
  · next hnotlt =>
    split at h
    · split at h
      · split at h
        · exact absurd h (by simp)
        · refine ⟨?_, Nat.le_of_not_lt hnotlt⟩
          simpa using h.symm
      · exact absurd h (by simp)
    · split at h
      · split at h
        · split at h
          · exact absurd h (by simp)
          · exact absurd h (by simp)
        · exact absurd h (by simp)
      · exact absurd h (by simp)

/-- An `Epoch` outcome of the ratchet: the new anchor takes the
candidate's version and epoch, the candidate was not below the old
version, its epoch is strictly above the old epoch, and the returned
epoch-change record establishes the new verifier. -/
theorem ratchet_epoch_facts (ts : TrustedState) (li : LedgerInfoWithSignatures)
    (p : EpochChangeProof) (ns : TrustedState) (lec : LedgerInfoWithSignatures)
    (h : verify_and_ratchet ts li p = .ok (.Epoch ns lec)) :
    ns.latest_version = li.ledger_info.version ∧
    ns.epoch = li.ledger_info.epoch ∧
    ts.latest_version ≤ li.ledger_info.version ∧
    ts.epoch < li.ledger_info.epoch ∧
    lec.ledger_info.next_epoch_state = some ns.verifier := by
  unfold verify_and_ratchet at h
  split at h
  · exact absurd h (by simp)
  · next hnotlt =>
    split at h
    · split at h
      · split at h
        · exact absurd h (by simp)
        · exact absurd h (by simp)
      · exact absurd h (by simp)
    · split at h
      · next hlt =>
        split at h
        · next v lastCp hchain =>
          split at h
          · simp only [Except.ok.injEq, TrustedStateChange.Epoch.injEq] at h
            obtain ⟨hns, hlec⟩ := h
            subst hns; subst hlec
            exact ⟨rfl, rfl, Nat.le_of_not_lt hnotlt, hlt,
              verifyChain_last_establishes _ _ _ _ _ hchain⟩
          · exact absurd h (by simp)
        · exact absurd h (by simp)
      · exact absurd h (by simp)

/-- A ratchet call that returns any successful outcome did not see a
candidate below the anchor's version. -/
theorem ratchet_ok_not_stale (ts : TrustedState) (li : LedgerInfoWithSignatures)
    (p : EpochChangeProof) (c : TrustedStateChange)
    (h : verify_and_ratchet ts li p = .ok c) :
    ¬ li.ledger_info.version < ts.latest_version := by
  intro hlt
  unfold verify_and_ratchet at h
  rw [if_pos hlt] at h
  exact absurd h (by simp)

/-- `verify_state_proof` never panics when a trusted state exists: the
only other `unwrap`/`expect` is the `Epoch`-arm `expect`, and an `Epoch`
outcome always carries an epoch-change record with a next-epoch state. -/
theorem verify_state_proof_no_panic (s : LibraDemo) (ts : TrustedState)
    (li : LedgerInfoWithSignatures) (ecp : EpochChangeProof)
    (hpre : s.trusted_state = some ts) :
    (verify_state_proof s li ecp).1 ≠ .panicked := by
  unfold verify_state_proof
  rw [hpre]
  simp only
  split
  · simp
  · split
    · simp
    · next ns lec hr =>
      have := (ratchet_epoch_facts ts li ecp ns lec hr).2.2.2.2
      rw [this]
      simp
    · simp
    · simp

/-- `verify_state_proof` leaves every field but `trusted_state` and
`latest_epoch_change_li` unchanged, and on any non-`ok` outcome leaves
the whole state unchanged. -/
theorem verify_state_proof_frame (s : LibraDemo) (li : LedgerInfoWithSignatures)
    (ecp : EpochChangeProof) :
    ((verify_state_proof s li ecp).2.chain_id = s.chain_id ∧
     (verify_state_proof s li ecp).2.rpc_client = s.rpc_client ∧
     (verify_state_proof s li ecp).2.latest_li = s.latest_li ∧
     (verify_state_proof s li ecp).2.transactions = s.transactions) ∧
    ((verify_state_proof s li ecp).1 ≠ .ok → (verify_state_proof s li ecp).2 = s) := by
  unfold verify_state_proof
  repeat' split
  all_goals simp [apply_ite]

/-- The versions covered by `k` consecutive whole pages of size `limit`
starting at page index `start` form the interval of length `k * limit`
beginning at version `start * limit + 1`. -/
theorem flatMap_pages (limit : Nat) :
    ∀ (k start : Nat),
      ((List.range' start k).map (fun index => (index * limit + 1, limit))).flatMap
          pageVersions
        = List.range' (start * limit + 1) (k * limit) := by
  intro k
  induction k with
  | zero => intro start; simp
  | succ n ih =>
    intro start
    rw [List.range'_succ]
    simp only [List.map_cons, List.flatMap_cons]
    rw [ih (start + 1)]
    show List.range' (start * limit + 1) limit
          ++ List.range' ((start + 1) * limit + 1) (n * limit)
        = List.range' (start * limit + 1) ((n + 1) * limit)
    have h1 : (start + 1) * limit + 1 = start * limit + 1 + limit := by ring
    rw [h1, List.range'_append_1]
    congr 1
    ring

/-- One `bridge` pass covers exactly a whole-page interval: ascending,
no gaps, no duplicates, starting at `start * limit + 1`. -/
theorem passVersions_eq (start limit new_version : Nat) :
    passVersions start limit new_version
      = List.range' (start * limit + 1) ((new_version / limit - start) * limit) := by
  unfold passVersions passPages
  exact flatMap_pages limit (new_version / limit - start) start

/-! ## Claims -/

/-- Claim C1: a call of `verify_state_proof` or of `init_state` that
returns or propagates an error value leaves the client's trust state —
in particular `trusted_state`, `latest_epoch_change_li` and
`latest_li` — exactly as it was before the call, with no partial update
visible. (For `init_state` this holds because it discards the inner
verification `Result` with `let _ =` and never returns an error value:
every failure of its own is an `unwrap` panic, not an error return.) -/
theorem c1_error_is_atomic :
    (∀ (s : LibraDemo) (li : LedgerInfoWithSignatures) (ecp : EpochChangeProof)
       (e : VerifyError),
       (verify_state_proof s li ecp).1 = .err e → (verify_state_proof s li ecp).2 = s) ∧
    (∀ (s : LibraDemo) (v : Nat) (r : Option StateProofView) (e : VerifyError),
       (init_state s v r).1 = .err e → (init_state s v r).2 = s) := by
  constructor
  · intro s li ecp e h
    exact (verify_state_proof_frame s li ecp).2 (by rw [h]; simp)
  · intro s v r e h
    exfalso
    revert h
    unfold init_state
    repeat' split
    all_goals simp

/-- Witness for C1 at a concrete stale call: the state is returned
bit-for-bit unchanged. -/
theorem c1_error_is_atomic_witness :
    (verify_state_proof
        { LibraDemo.new "" with trusted_state := some ⟨30, 0, 4⟩ }
        ⟨⟨7, 0, none⟩, 4⟩ ⟨[]⟩).2
      = { LibraDemo.new "" with trusted_state := some ⟨30, 0, 4⟩ } :=
  c1_error_is_atomic.1 { LibraDemo.new "" with trusted_state := some ⟨30, 0, 4⟩ }
    ⟨⟨7, 0, none⟩, 4⟩ ⟨[]⟩ .stale (by decide)

/-- Claim C2 fails on the code: `bridge` calls `init_state` on every
pass, and `init_state` unconditionally re-seeds the trusted state from
the first checkpoint of the fetched proof (main.rs lines 93-96) before
re-verifying, discarding any verification error; at this concrete input
a trusted state at version 5, epoch 1 drops to version 0, epoch 0
after the call. -/
theorem c2_counterexample :
    ({ LibraDemo.new "" with trusted_state := some ⟨5, 1, 7⟩ } : LibraDemo).trusted_state
        = some ⟨5, 1, 7⟩ ∧
    (init_state { LibraDemo.new "" with trusted_state := some ⟨5, 1, 7⟩ } 0
        (some { epoch_change_proof := some ⟨[⟨⟨0, 0, some 3⟩, 9⟩]⟩,
                ledger_info_with_signatures := some ⟨⟨10, 0, none⟩, 5⟩,
                ledger_consistency_proof := some ⟨0, 0⟩ })).2.trusted_state
        = some ⟨0, 0, 3⟩ ∧
    (0 : Nat) < 5 ∧ (0 : Nat) < 1 := by decide

/-- Claim C2 amended: monotonicity holds for `verify_state_proof` — when
a trusted state exists before the call, the post-call trusted state's
`latest_version` and epoch are at least the pre-call values — but not
for `init_state`, which re-seeds the anchor from the fetched proof's
first checkpoint and can lower both (see the counterexample). -/
theorem c2_amended (s : LibraDemo) (li : LedgerInfoWithSignatures)
    (ecp : EpochChangeProof) (ts ts2 : TrustedState)
    (hpre : s.trusted_state = some ts)
    (hpost : (verify_state_proof s li ecp).2.trusted_state = some ts2) :
    ts.latest_version ≤ ts2.latest_version ∧ ts.epoch ≤ ts2.epoch := by
  unfold verify_state_proof at hpost
  split at hpost
  · next hnone => rw [hpre] at hnone; exact absurd hnone (by simp)
  · next ts1 hsome =>
    rw [hpre] at hsome
    obtain rfl : ts1 = ts := (Option.some.inj hsome).symm
    split at hpost
    · -- stale candidate: error return, state unchanged
      simp [hpre] at hpost
      subst hpost
      exact ⟨le_refl _, le_refl _⟩
    · split at hpost
      · -- ratchet returned an error: state unchanged
        simp [hpre] at hpost
        subst hpost
        exact ⟨le_refl _, le_refl _⟩
      · next ns lec hr =>
        split at hpost
        · -- Epoch outcome whose record lacks a next-epoch state: panic
          simp [hpre] at hpost
          subst hpost
          exact ⟨le_refl _, le_refl _⟩
        · simp at hpost
          obtain ⟨hv, he, hvle, helt, _⟩ := ratchet_epoch_facts ts1 li ecp ns lec hr
          subst hpost
          constructor
          · rw [hv]; exact hvle
          · rw [he]; exact Nat.le_of_lt helt
      · next ns hr =>
        simp at hpost
        obtain ⟨hns, hle⟩ := ratchet_version_eq ts1 li ecp ns hr
        subst hpost
        subst hns
        exact ⟨hle, le_refl _⟩
      · -- NoChange: state unchanged
        simp [hpre] at hpost
        subst hpost
        exact ⟨le_refl _, le_refl _⟩

/-- Witness for the amended C2 at a concrete successful version advance
from version 0 to version 10. -/
theorem c2_amended_witness :
    (TrustedState.mk 0 0 4).latest_version ≤ (TrustedState.mk 10 0 4).latest_version ∧
    (TrustedState.mk 0 0 4).epoch ≤ (TrustedState.mk 10 0 4).epoch :=
  c2_amended { LibraDemo.new "" with trusted_state := some ⟨0, 0, 4⟩ }
    ⟨⟨10, 0, none⟩, 4⟩ ⟨[]⟩ ⟨0, 0, 4⟩ ⟨10, 0, 4⟩ rfl (by decide)

/-- Claim C3 fails on the code: the ConsistencyProof is decoded each
pass (main.rs lines 90-91) but never checked — at this concrete input
the proof links versions 77 to 88, not the anchor's pre-call verified
version 0 to the candidate's version 20, yet the pass succeeds and the
anchor advances to version 20 instead of failing with a verification
error. -/
theorem c3_counterexample :
    AccumulatorConsistencyProof.links ⟨77, 88⟩ 0 20 = false ∧
    (init_state (LibraDemo.new "") 0
        (some { epoch_change_proof := some ⟨[⟨⟨0, 0, some 4⟩, 9⟩]⟩,
                ledger_info_with_signatures := some ⟨⟨20, 0, none⟩, 4⟩,
                ledger_consistency_proof := some ⟨77, 88⟩ })).1 = .ok ∧
    (init_state (LibraDemo.new "") 0
        (some { epoch_change_proof := some ⟨[⟨⟨0, 0, some 4⟩, 9⟩]⟩,
                ledger_info_with_signatures := some ⟨⟨20, 0, none⟩, 4⟩,
                ledger_consistency_proof := some ⟨77, 88⟩ })).2.trusted_state
      = some ⟨20, 0, 4⟩ := by decide

/-- Claim C3 amended: each pass decodes the ConsistencyProof — bytes
that fail to decode panic the `unwrap` — but the decoded proof is never
checked: the outcome and resulting state of the pass are identical for
any two decoded consistency proofs, whether or not they link the
pre-call version to the candidate version. -/
theorem c3_amended (s : LibraDemo) (v : Nat) (spv : StateProofView)
    (cp1 cp2 : AccumulatorConsistencyProof) :
    init_state s v (some { spv with ledger_consistency_proof := some cp1 })
      = init_state s v (some { spv with ledger_consistency_proof := some cp2 }) := by
  rfl

/-- Claim C4 fails on the code: a failed transport slot or malformed
proof bytes do not come back to the sync loop as error values — the
`unwrap`s at main.rs lines 78-91 panic the process. -/
theorem c4_counterexample :
    (init_state (LibraDemo.new "") 0 none).1 = .panicked ∧
    (init_state (LibraDemo.new "") 0
        (some { epoch_change_proof := none,
                ledger_info_with_signatures := some ⟨⟨10, 0, none⟩, 4⟩,
                ledger_consistency_proof := some ⟨0, 10⟩ })).1 = .panicked := by decide

/-- Claim C4 amended: verification failures (stale candidate, ratchet
rejection) are returned as values and stay local to the pass —
`init_state` discards the inner `Result` and returns `Ok(())`, and the
loop retries after the idle interval — but a transport failure or
malformed proof bytes is `unwrap`ed and panics the process instead of
being returned as a value. -/
theorem c4_amended :
    (∀ (s : LibraDemo) (v : Nat) (spv : StateProofView)
       (ecp : EpochChangeProof) (li : LedgerInfoWithSignatures)
       (cp : AccumulatorConsistencyProof) (z : LedgerInfoWithSignatures)
       (ts0 : TrustedState),
       spv.epoch_change_proof = some ecp →
       spv.ledger_info_with_signatures = some li →
       spv.ledger_consistency_proof = some cp →
       ecp.ledger_info_with_sigs.head? = some z →
       TrustedState.try_from z.ledger_info = some ts0 →
       (init_state s v (some spv)).1 = .ok) ∧
    (∀ (s : LibraDemo) (v : Nat), (init_state s v none).1 = .panicked) ∧
    (∀ (s : LibraDemo) (v : Nat) (spv : StateProofView),
       spv.epoch_change_proof = none → (init_state s v (some spv)).1 = .panicked) := by
  refine ⟨?_, fun s v => rfl, ?_⟩
  · intro s v spv ecp li cp z ts0 h1 h2 h3 h4 h5
    unfold init_state
    simp only [h1, h2, h3, h4, h5]
    have hnp := verify_state_proof_no_panic
      { s with latest_epoch_change_li := some z, trusted_state := some ts0,
               latest_li := some li } ts0 li ecp rfl
    rcases hv : verify_state_proof
      { s with latest_epoch_change_li := some z, trusted_state := some ts0,
               latest_li := some li } li ecp with ⟨o, s3⟩
    cases o with
    | ok => rfl
    | err e => rfl
    | panicked => rw [hv] at hnp; exact absurd rfl hnp
  · intro s v spv h
    unfold init_state
    simp only [h]

/-- Witness for the amended C4: a pass whose candidate fails signature
verification still returns `Ok(())`, and a failed transport slot
panics. -/
theorem c4_amended_witness :
    (init_state (LibraDemo.new "") 0
        (some { epoch_change_proof := some ⟨[⟨⟨0, 0, some 4⟩, 9⟩]⟩,
                ledger_info_with_signatures := some ⟨⟨20, 0, none⟩, 11⟩,
                ledger_consistency_proof := some ⟨0, 20⟩ })).1 = .ok ∧
    (init_state (LibraDemo.new "") 0 none).1 = .panicked :=
  ⟨c4_amended.1 (LibraDemo.new "") 0 _ _ _ _ _ _ rfl rfl rfl rfl rfl,
   c4_amended.2.1 (LibraDemo.new "") 0⟩

/-- Claim C5 fails on the code: the first pass over a verified range
`[0, V]` starts its first page at version 1, so version 0 — inside the
claimed closed interval — is never requested; and with `V = 150` the
trailing partial page (versions 101..150) is not requested in that pass
either. -/
theorem c5_counterexample :
    0 ∉ passVersions 0 100 100 ∧ 0 ∈ List.range' 0 101 ∧
    150 ∉ passVersions 0 100 150 := by decide

/-- Claim C5 amended: a pass with cursor `start` and page size `limit`
requests exactly the consecutive whole-page interval
`start * limit + 1 .. (new_version / limit) * limit` — ascending, no
gaps, no duplicates — so version 0 is never requested and a trailing
partial page is deferred to later passes; and across the
catch-up/steady-state boundary (first pass at page size 100, next pass
resuming at cursor `(V / 100) * 100` with page size 1 up to `W`) the two
passes concatenate to exactly versions `1 .. W`, with no gap and no
double fetch at the boundary. -/
theorem c5_amended (start limit V W : Nat) (hW : V / 100 * 100 ≤ W) :
    passVersions start limit V
        = List.range' (start * limit + 1) ((V / limit - start) * limit) ∧
    passVersions 0 100 V ++ passVersions (V / 100 * 100) 1 W = List.range' 1 W := by
  constructor
  · exact passVersions_eq start limit V
  · rw [passVersions_eq 0 100 V, passVersions_eq (V / 100 * 100) 1 W]
    simp only [Nat.zero_mul, Nat.zero_add, Nat.sub_zero, Nat.mul_one, Nat.div_one]
    have h1 : V / 100 * 100 + 1 = 1 + V / 100 * 100 := by omega
    rw [h1, List.range'_append_1]
    congr 1
    omega

/-- Witness for the amended C5 with a catch-up pass to version 250 and a
steady-state pass to version 300. -/
theorem c5_amended_witness :
    passVersions 1 100 250
        = List.range' (1 * 100 + 1) ((250 / 100 - 1) * 100) ∧
    passVersions 0 100 250 ++ passVersions (250 / 100 * 100) 1 300
        = List.range' 1 300 :=
  c5_amended 1 100 250 300 (by decide)

/-- Claim C6: with a trusted state at some version, a candidate strictly
below that version makes `verify_state_proof` return the stale error
with the state untouched, and a candidate at or above it passes the
stale check of main.rs lines 112-119 — the call never returns that
stale error. -/
theorem c6_stale_check (s : LibraDemo) (ts : TrustedState)
    (li : LedgerInfoWithSignatures) (ecp : EpochChangeProof)
    (hpre : s.trusted_state = some ts) :
    (li.ledger_info.version < ts.latest_version →
       verify_state_proof s li ecp = (.err .stale, s)) ∧
    (ts.latest_version ≤ li.ledger_info.version →
       (verify_state_proof s li ecp).1 ≠ .err .stale) := by
  constructor
  · intro hlt
    simp only [verify_state_proof, hpre]
    rw [if_pos hlt]
  · intro hge
    simp only [verify_state_proof, hpre]
    rw [if_neg (Nat.not_lt.mpr hge)]
    cases hr : verify_and_ratchet ts li ecp with
    | error e => simp
    | ok c =>
      cases c with
      | Epoch ns lec =>
        cases hne : lec.ledger_info.next_epoch_state with
        | none => simp [hne]
        | some w => simp [hne]
      | Version ns => simp
      | NoChange => simp

/-- Witness for C6: a candidate at version 15 against an anchor at
version 20 is rejected as stale with the state unchanged, and a
candidate at version 25 passes the stale check. -/
theorem c6_stale_check_witness :
    verify_state_proof { LibraDemo.new "" with trusted_state := some ⟨20, 0, 4⟩ }
        ⟨⟨15, 0, none⟩, 4⟩ ⟨[]⟩
      = (.err .stale, { LibraDemo.new "" with trusted_state := some ⟨20, 0, 4⟩ }) ∧
    (verify_state_proof { LibraDemo.new "" with trusted_state := some ⟨20, 0, 4⟩ }
        ⟨⟨25, 0, none⟩, 4⟩ ⟨[]⟩).1 ≠ .err .stale :=
  ⟨(c6_stale_check { LibraDemo.new "" with trusted_state := some ⟨20, 0, 4⟩ }
      ⟨20, 0, 4⟩ ⟨⟨15, 0, none⟩, 4⟩ ⟨[]⟩ rfl).1 (by decide),
   (c6_stale_check { LibraDemo.new "" with trusted_state := some ⟨20, 0, 4⟩ }
      ⟨20, 0, 4⟩ ⟨⟨25, 0, none⟩, 4⟩ ⟨[]⟩ rfl).2 (by decide)⟩

/-- Claim C7 fails on the code: `bridge` calls `init_state` on every
loop pass and `init_state` unconditionally re-creates the anchor from
the proof's first checkpoint (main.rs lines 93-96) even when an anchor
already exists — here a pre-existing anchor at version 8, epoch 2 is
replaced by the bootstrap anchor of the first checkpoint (version 0,
epoch 1), which is no ratchet advance of the existing anchor. -/
theorem c7_counterexample :
    ({ LibraDemo.new "" with trusted_state := some ⟨8, 2, 7⟩ } : LibraDemo).trusted_state
        = some ⟨8, 2, 7⟩ ∧
    TrustedState.try_from (LedgerInfo.mk 0 1 (some 4)) = some ⟨0, 1, 4⟩ ∧
    (init_state { LibraDemo.new "" with trusted_state := some ⟨8, 2, 7⟩ } 0
        (some { epoch_change_proof := some ⟨[⟨⟨0, 1, some 4⟩, 9⟩]⟩,
                ledger_info_with_signatures := some ⟨⟨3, 1, none⟩, 6⟩,
                ledger_consistency_proof := some ⟨0, 3⟩ })).2.trusted_state
      = some ⟨0, 1, 4⟩ ∧
    (0 : Nat) < 8 := by decide

/-- Claim C7 amended: the anchor is re-created from the first checkpoint
of the fetched EpochChangeProof on every `init_state` call, on every
pass — not only when no anchor exists yet: on the success path the
call's entire result is independent of whatever trust state existed
before the call. -/
theorem c7_amended (s : LibraDemo) (v : Nat) (spv : StateProofView)
    (t1 t2 : Option TrustedState) (l1 l2 m1 m2 : Option LedgerInfoWithSignatures)
    (ecp : EpochChangeProof) (li : LedgerInfoWithSignatures)
    (cp : AccumulatorConsistencyProof) (z : LedgerInfoWithSignatures)
    (ts0 : TrustedState)
    (h1 : spv.epoch_change_proof = some ecp)
    (h2 : spv.ledger_info_with_signatures = some li)
    (h3 : spv.ledger_consistency_proof = some cp)
    (h4 : ecp.ledger_info_with_sigs.head? = some z)
    (h5 : TrustedState.try_from z.ledger_info = some ts0) :
    init_state { s with trusted_state := t1, latest_epoch_change_li := l1, latest_li := m1 }
        v (some spv)
      = init_state { s with trusted_state := t2, latest_epoch_change_li := l2, latest_li := m2 }
        v (some spv) := by
  unfold init_state
  simp only [h1, h2, h3, h4, h5]

/-- Witness for the amended C7: with and without a pre-existing anchor,
the pass produces the same result. -/
theorem c7_amended_witness :
    init_state { LibraDemo.new "" with
          trusted_state := some ⟨9, 9, 9⟩,
          latest_epoch_change_li := some ⟨⟨1, 1, some 2⟩, 3⟩,
          latest_li := some ⟨⟨4, 1, none⟩, 2⟩ } 0
        (some { epoch_change_proof := some ⟨[⟨⟨0, 0, some 4⟩, 9⟩]⟩,
                ledger_info_with_signatures := some ⟨⟨20, 0, none⟩, 4⟩,
                ledger_consistency_proof := some ⟨0, 20⟩ })
      = init_state { LibraDemo.new "" with
            trusted_state := none, latest_epoch_change_li := none,
            latest_li := none } 0
        (some { epoch_change_proof := some ⟨[⟨⟨0, 0, some 4⟩, 9⟩]⟩,
                ledger_info_with_signatures := some ⟨⟨20, 0, none⟩, 4⟩,
                ledger_consistency_proof := some ⟨0, 20⟩ }) :=
  c7_amended (LibraDemo.new "") 0
    { epoch_change_proof := some ⟨[⟨⟨0, 0, some 4⟩, 9⟩]⟩,
      ledger_info_with_signatures := some ⟨⟨20, 0, none⟩, 4⟩,
      ledger_consistency_proof := some ⟨0, 20⟩ }
    (some ⟨9, 9, 9⟩) none (some ⟨⟨1, 1, some 2⟩, 3⟩) none
    (some ⟨⟨4, 1, none⟩, 2⟩) none _ _ _ _ _ rfl rfl rfl rfl rfl

set_option maxRecDepth 4000 in
/-- Claim C8 fails on the code: `known_version` is an immutable binding
(main.rs line 194), so the baseline of the state-proof request is 0 on
every pass — after a first catch-up pass that verified version 200 and
fully paginated through version 200, the next pass's baseline is still
0, not 200. -/
theorem c8_counterexample :
    (bridgeStep bridgeInit 200).known_version = 0 ∧
    lastPaginatedVersion 100 200 = 200 ∧
    (passVersions 0 100 200).getLast? = some 200 ∧
    (bridgeStep bridgeInit 200).known_version ≠ lastPaginatedVersion 100 200 := by
  decide

/-- Claim C8 amended: the baseline version of the state-proof request is
0 on the first pass and stays 0 on every subsequent pass: the
`known_version` binding is declared outside the loop and never
reassigned, whatever versions the passes verify. -/
theorem c8_amended (vs : List Nat) :
    (vs.foldl bridgeStep bridgeInit).known_version = 0 := by
  suffices h : ∀ (l : List Nat) (b : BridgeState),
      (l.foldl bridgeStep b).known_version = b.known_version by
    rw [h vs bridgeInit]; rfl
  intro l
  induction l with
  | nil => intro b; rfl
  | cons a t ih =>
    intro b
    rw [List.foldl_cons, ih]; rfl

/-- Claim C9: when the ratchet reports a same-epoch `Version` advance,
`verify_state_proof` succeeds and only the trusted state's version
moves: the epoch (and verifier) of the trusted state and the
`latest_epoch_change_li` (and `latest_li`) of the client are identical
before and after the call. -/
theorem c9_version_frame (s : LibraDemo) (ts : TrustedState)
    (li : LedgerInfoWithSignatures) (ecp : EpochChangeProof) (ns : TrustedState)
    (hpre : s.trusted_state = some ts)
    (hr : verify_and_ratchet ts li ecp = .ok (.Version ns)) :
    (verify_state_proof s li ecp).1 = .ok ∧
    (verify_state_proof s li ecp).2.trusted_state = some ns ∧
    ns.epoch = ts.epoch ∧ ns.verifier = ts.verifier ∧
    (verify_state_proof s li ecp).2.latest_epoch_change_li = s.latest_epoch_change_li ∧
    (verify_state_proof s li ecp).2.latest_li = s.latest_li := by
  obtain ⟨hns, hle⟩ := ratchet_version_eq ts li ecp ns hr
  simp only [verify_state_proof, hpre, hr]
  rw [if_neg (Nat.not_lt.mpr hle)]
  subst hns
  simp

/-- Witness for C9 at a concrete same-epoch advance from version 10 to
version 22 in epoch 3. -/
theorem c9_version_frame_witness :
    (verify_state_proof { LibraDemo.new "" with
        trusted_state := some ⟨10, 3, 6⟩,
        latest_epoch_change_li := some ⟨⟨2, 2, some 6⟩, 5⟩ }
        ⟨⟨22, 3, none⟩, 6⟩ ⟨[]⟩).1 = .ok ∧
    (verify_state_proof { LibraDemo.new "" with
        trusted_state := some ⟨10, 3, 6⟩,
        latest_epoch_change_li := some ⟨⟨2, 2, some 6⟩, 5⟩ }
        ⟨⟨22, 3, none⟩, 6⟩ ⟨[]⟩).2.trusted_state = some ⟨22, 3, 6⟩ ∧
    (TrustedState.mk 22 3 6).epoch = (TrustedState.mk 10 3 6).epoch ∧
    (TrustedState.mk 22 3 6).verifier = (TrustedState.mk 10 3 6).verifier ∧
    (verify_state_proof { LibraDemo.new "" with
        trusted_state := some ⟨10, 3, 6⟩,
        latest_epoch_change_li := some ⟨⟨2, 2, some 6⟩, 5⟩ }
        ⟨⟨22, 3, none⟩, 6⟩ ⟨[]⟩).2.latest_epoch_change_li
      = ({ LibraDemo.new "" with
           trusted_state := some ⟨10, 3, 6⟩,
           latest_epoch_change_li := some ⟨⟨2, 2, some 6⟩, 5⟩ } : LibraDemo).latest_epoch_change_li ∧
    (verify_state_proof { LibraDemo.new "" with
        trusted_state := some ⟨10, 3, 6⟩,
        latest_epoch_change_li := some ⟨⟨2, 2, some 6⟩, 5⟩ }
        ⟨⟨22, 3, none⟩, 6⟩ ⟨[]⟩).2.latest_li
      = ({ LibraDemo.new "" with
           trusted_state := some ⟨10, 3, 6⟩,
           latest_epoch_change_li := some ⟨⟨2, 2, some 6⟩, 5⟩ } : LibraDemo).latest_li :=
  c9_version_frame
    { LibraDemo.new "" with
        trusted_state := some ⟨10, 3, 6⟩,
        latest_epoch_change_li := some ⟨⟨2, 2, some 6⟩, 5⟩ }
    ⟨10, 3, 6⟩ ⟨⟨22, 3, none⟩, 6⟩ ⟨[]⟩ ⟨22, 3, 6⟩ rfl rfl

/-- `init_state` never touches the chain id: every branch either returns
the receiver (possibly with trust fields updated) or the result of
`verify_state_proof`, which also preserves it. -/
theorem init_state_chain_id (s : LibraDemo) (v : Nat) (r : Option StateProofView) :
    (init_state s v r).2.chain_id = s.chain_id := by
  unfold init_state
  repeat' split
  all_goals
    first
    | rfl
    | (rename_i heq
       exact (congrArg (fun p => p.2.chain_id) heq).symm.trans
         ((verify_state_proof_frame _ _ _).1.1))

/-- Claim C10: every constructed client carries the hard-coded testnet
chain id `ChainId::new(2)` whatever endpoint URL it was given, and no
client operation (`init_state`, `verify_state_proof`,
`get_transactions`) ever changes it. -/
theorem c10_chain_id :
    (∀ url : String, (LibraDemo.new url).chain_id = ChainId.new 2) ∧
    (∀ (s : LibraDemo) (li : LedgerInfoWithSignatures) (ecp : EpochChangeProof),
       (verify_state_proof s li ecp).2.chain_id = s.chain_id) ∧
    (∀ (s : LibraDemo) (v : Nat) (r : Option StateProofView),
       (init_state s v r).2.chain_id = s.chain_id) ∧
    (∀ (s : LibraDemo) (a b : Nat) (c : Bool) (r : Option (List TransactionView)),
       (get_transactions s a b c r).2.chain_id = s.chain_id) := by
  refine ⟨fun url => rfl,
    fun s li ecp => (verify_state_proof_frame s li ecp).1.1,
    init_state_chain_id,
    ?_⟩
  intro s a b c r
  cases r <;> rfl
